import Mathlib

/-!
Verification of the render-flow scheduling core of griphin-rs.

The embedding mirrors `src/flow/builder.rs`, `src/flow/grid.rs` and
`src/flow/render_task.rs`.  Rust's `FlowGridBuilder` values live in the
caller's hands and are mutated by `add_render_task` through `&mut`
references and `Cell`s; we model that heap of cells as a `Store` mapping
an abstract reference (`GridRef`) to the current `FlowGridBuilder` value.
Machine integers (`u32`, `u16`) are modelled as `Nat`; the moments grow by
at most one per added task, far from any overflow.
-/

set_option autoImplicit false

namespace Griphin

/-- Mirrors `AbstractGridID` (src/grid/id.rs): `group_id: u32`, `local_id: u16`. -/
structure AbstractGridID where
  group_id : Nat
  local_id : Nat
deriving DecidableEq

/-- Mirrors `RenderFlowBuilderID` (src/flow/builder.rs):
`group_id: AbstractGridGroupID`, `local_id: u32`. -/
structure RenderFlowBuilderID where
  group_id : Nat
  local_id : Nat
deriving DecidableEq

/-- Mirrors `FlowGridSketch` (src/flow/grid.rs). -/
structure FlowGridSketch where
  preserve_initial_content : Bool
  preserve_final_content : Bool
deriving DecidableEq

/-- Mirrors `FlowGridSketch::new`: the final-content flag starts out `false`. -/
def FlowGridSketch.new (preserve_initial_content : Bool) : FlowGridSketch :=
  { preserve_initial_content := preserve_initial_content, preserve_final_content := false }

/-- Mirrors `FlowGridBuilder` (src/flow/grid.rs): the per-grid hazard cell
holding `last_read_moment : Cell<u32>` and `last_write_moment : u32`. -/
structure FlowGridBuilder where
  grid_id : AbstractGridID
  last_read_moment : Nat
  last_write_moment : Nat
deriving DecidableEq

/-- Mirrors `FlowGridBuilder::new`: both moments start at 0. -/
def FlowGridBuilder.new (grid_id : AbstractGridID) : FlowGridBuilder :=
  { grid_id := grid_id, last_read_moment := 0, last_write_moment := 0 }

/-- An abstract address of one `FlowGridBuilder` cell owned by the caller. -/
abbrev GridRef := Nat

/-- The heap of `FlowGridBuilder` cells reachable from task declarations. -/
abbrev Store := GridRef → FlowGridBuilder

/-- Write one cell of the store (a `&mut`/`Cell` update in the Rust code). -/
def setGrid (s : Store) (r : GridRef) (g : FlowGridBuilder) : Store :=
  fun x => if x = r then g else s x

/-- Mirrors `RenderTaskInputBuilder` (src/flow/render_task.rs): a shared
reference to a grid cell plus a shader variable name. -/
structure RenderTaskInputBuilder where
  grid : GridRef
  shader_variable_name : String
deriving DecidableEq

/-- Mirrors `RenderTaskOutputBuilder` (src/flow/render_task.rs). -/
structure RenderTaskOutputBuilder where
  grid : GridRef
  shader_variable_name : String
deriving DecidableEq

/-- Mirrors `RenderTaskBuilder` (src/flow/render_task.rs). -/
structure RenderTaskBuilder where
  inputs : List RenderTaskInputBuilder
  outputs : List RenderTaskOutputBuilder
  depth_stencil_grid : GridRef
deriving DecidableEq

/-- Mirrors `RenderTaskInputSketch` (src/flow/render_task.rs). -/
structure RenderTaskInputSketch where
  grid_id : AbstractGridID
  shader_variable_name : String
deriving DecidableEq

/-- Mirrors `RenderTaskOutputSketch` (src/flow/render_task.rs). -/
structure RenderTaskOutputSketch where
  grid_id : AbstractGridID
  shader_variable_name : String
deriving DecidableEq

/-- Mirrors `RenderTaskSketch` (src/flow/render_task.rs). -/
structure RenderTaskSketch where
  moment : Nat
  inputs : List RenderTaskInputSketch
  outputs : List RenderTaskOutputSketch
  depth_stencil_grid : AbstractGridID
deriving DecidableEq

/-- Mirrors `RenderFlowBuilder` (src/flow/builder.rs); the `HashMap` of used
grids is modelled as an association list (no claim depends on its order). -/
structure RenderFlowBuilder where
  drawing_nodes : List RenderTaskSketch
  used_grids : List (AbstractGridID × FlowGridSketch)
  id : RenderFlowBuilderID
deriving DecidableEq

/-- The first `for` loop of `add_render_task` (builder.rs lines 71 to 75):
raise `moment` past the last write of every input grid. -/
def inputLoop (s : Store) : List RenderTaskInputBuilder → Nat → Nat
  | [], moment => moment
  | input :: rest, moment =>
      inputLoop s rest
        (if (s input.grid).last_write_moment ≥ moment
         then (s input.grid).last_write_moment + 1 else moment)

/-- One iteration of the second `for` loop (builder.rs lines 79 to 84). -/
def outputStep (s : Store) (output : RenderTaskOutputBuilder) (moment : Nat) : Nat :=
  let m1 := if (s output.grid).last_write_moment ≥ moment
            then (s output.grid).last_write_moment + 1 else moment
  if (s output.grid).last_read_moment ≥ m1
  then (s output.grid).last_read_moment + 1 else m1

/-- The second `for` loop of `add_render_task` (builder.rs lines 78 to 85). -/
def outputLoop (s : Store) : List RenderTaskOutputBuilder → Nat → Nat
  | [], moment => moment
  | output :: rest, moment => outputLoop s rest (outputStep s output moment)

/-- The depth/stencil adjustment (builder.rs lines 88 to 93); note the
inclusive bounds: no `+ 1` here. -/
def depthStep (s : Store) (d : GridRef) (moment : Nat) : Nat :=
  let m1 := if (s d).last_read_moment ≥ moment then (s d).last_read_moment else moment
  if (s d).last_write_moment ≥ m1 then (s d).last_write_moment else m1

/-- The whole moment computation of `add_render_task` (builder.rs 68 to 93). -/
def computeMoment (s : Store) (task : RenderTaskBuilder) : Nat :=
  depthStep s task.depth_stencil_grid
    (outputLoop s task.outputs (inputLoop s task.inputs 1))

/-- Commit loop over inputs (builder.rs lines 96 to 98):
`input.grid.last_read_moment.set(moment)`. -/
def commitInputs (s : Store) (moment : Nat) : List RenderTaskInputBuilder → Store
  | [] => s
  | input :: rest =>
      commitInputs
        (setGrid s input.grid { s input.grid with last_read_moment := moment })
        moment rest

/-- Commit loop over outputs (builder.rs lines 99 to 103): set both the last
write and, since modifying a grid implicitly also reads it, the last read. -/
def commitOutputs (s : Store) (moment : Nat) : List RenderTaskOutputBuilder → Store
  | [] => s
  | output :: rest =>
      commitOutputs
        (setGrid s output.grid
          { s output.grid with last_write_moment := moment, last_read_moment := moment })
        moment rest

/-- Commit for the depth/stencil grid (builder.rs lines 106 to 107). -/
def commitDepth (s : Store) (moment : Nat) (d : GridRef) : Store :=
  setGrid s d { s d with last_write_moment := moment, last_read_moment := moment }

/-- The grid references bound as inputs of a task. -/
def inputRefs (task : RenderTaskBuilder) : List GridRef :=
  task.inputs.map RenderTaskInputBuilder.grid

/-- The grid references bound as outputs of a task. -/
def outputRefs (task : RenderTaskBuilder) : List GridRef :=
  task.outputs.map RenderTaskOutputBuilder.grid

/-- All grid references a task binds (inputs, outputs, depth/stencil). -/
def taskRefs (task : RenderTaskBuilder) : List GridRef :=
  inputRefs task ++ outputRefs task ++ [task.depth_stencil_grid]

/-- The `RenderTaskSketch` pushed by `add_render_task` (builder.rs 109 to 119),
as a function of the pre-call store. -/
def emitted_sketch (s : Store) (task : RenderTaskBuilder) : RenderTaskSketch :=
  let moment := computeMoment s task
  let s1 := commitInputs s moment task.inputs
  let s2 := commitOutputs s1 moment task.outputs
  let s3 := commitDepth s2 moment task.depth_stencil_grid
  RenderTaskSketch.mk moment
    (task.inputs.map fun builder =>
      RenderTaskInputSketch.mk (s3 builder.grid).grid_id builder.shader_variable_name)
    (task.outputs.map fun builder =>
      RenderTaskOutputSketch.mk (s3 builder.grid).grid_id builder.shader_variable_name)
    ((s3 task.depth_stencil_grid).grid_id)

/-- Mirrors `RenderFlowBuilder::add_render_task` (builder.rs lines 66 to 120):
compute the moment, commit the hazard state, push the sketch. -/
def add_render_task (b : RenderFlowBuilder) (s : Store) (task : RenderTaskBuilder) :
    RenderFlowBuilder × Store :=
  let moment := computeMoment s task
  let s1 := commitInputs s moment task.inputs
  let s2 := commitOutputs s1 moment task.outputs
  let s3 := commitDepth s2 moment task.depth_stencil_grid
  ({ b with drawing_nodes := b.drawing_nodes ++ [emitted_sketch s task] }, s3)

/-- Run a sequence of `add_render_task` calls in order. -/
def runTasks (b : RenderFlowBuilder) (s : Store) : List RenderTaskBuilder → RenderFlowBuilder × Store
  | [] => (b, s)
  | t :: ts => runTasks (add_render_task b s t).1 (add_render_task b s t).2 ts

/-- The two fatal errors of `add_grid_node` (the `panic!` calls at
builder.rs lines 124 and 127). -/
inductive AddGridError where
  | foreignResource
  | duplicateResource
deriving DecidableEq

/-- Lookup in the `used_grids` map. -/
def mapGet (m : List (AbstractGridID × FlowGridSketch)) (k : AbstractGridID) :
    Option FlowGridSketch :=
  match m.find? (fun p => p.1 == k) with
  | some p => some p.2
  | none => none

/-- `HashMap::insert`: replace the value under `k` if present, else add it. -/
def mapInsert (m : List (AbstractGridID × FlowGridSketch)) (k : AbstractGridID)
    (v : FlowGridSketch) : List (AbstractGridID × FlowGridSketch) :=
  if (m.find? (fun p => p.1 == k)).isSome
  then m.map (fun p => if p.1 == k then (k, v) else p)
  else m ++ [(k, v)]

/-- Mirrors `RenderFlowBuilder::add_grid_node` (builder.rs lines 122 to 130).
A `panic!` is modelled as an `Except.error`; the returned builder component is
the builder's state at the moment of return or panic.  Rust's
`used_grids.insert(grid, FlowGridSketch::new(preserve_content)).is_some()`
first replaces the stored sketch and then reports whether an old binding
existed, so the insert happens in both the duplicate branch and the success
branch, and the duplicate test is on the map before the insert. -/
def add_grid_node (b : RenderFlowBuilder) (grid : AbstractGridID) (preserve_content : Bool) :
    RenderFlowBuilder × Except AddGridError FlowGridBuilder :=
  if grid.group_id ≠ b.id.group_id then
    (b, Except.error AddGridError.foreignResource)
  else if (mapGet b.used_grids grid).isSome then
    ({ b with
        used_grids := mapInsert b.used_grids grid (FlowGridSketch.new preserve_content) },
     Except.error AddGridError.duplicateResource)
  else
    ({ b with
        used_grids := mapInsert b.used_grids grid (FlowGridSketch.new preserve_content) },
     Except.ok (FlowGridBuilder.new grid))

/-! ### The moment algorithm as worded by the specification (section 4.2)

For claim C1 we restate the four-step algorithm following the spec's words
(steps 1 to 4 over the resource lists of the task) and compare it with
`computeMoment`, which was translated from the source. -/

/-- Spec 4.2 step 2 (read-after-write): for every input resource, if its
`last_write_moment ≥ moment`, set `moment := last_write_moment + 1`. -/
def specStepInputs (s : Store) (inputs : List GridRef) (moment : Nat) : Nat :=
  inputs.foldl
    (fun m r => if (s r).last_write_moment ≥ m then (s r).last_write_moment + 1 else m)
    moment

/-- Spec 4.2 step 3 (write-after-write, then write-after-read): for every
output resource, first the `last_write_moment ≥ moment` check with `+ 1`,
then the `last_read_moment ≥ moment` check with `+ 1`. -/
def specStepOutputs (s : Store) (outputs : List GridRef) (moment : Nat) : Nat :=
  outputs.foldl
    (fun m r =>
      let m2 := if (s r).last_write_moment ≥ m then (s r).last_write_moment + 1 else m
      if (s r).last_read_moment ≥ m2 then (s r).last_read_moment + 1 else m2)
    moment

/-- Spec 4.2 step 4 (depth/stencil class, inclusive bounds): the
`last_read_moment` check first, then the `last_write_moment` check, with no
`+ 1` on either. -/
def specStepDepth (s : Store) (d : GridRef) (moment : Nat) : Nat :=
  let m2 := if (s d).last_read_moment ≥ moment then (s d).last_read_moment else moment
  if (s d).last_write_moment ≥ m2 then (s d).last_write_moment else m2

/-- Spec 4.2 steps 1 to 4: `moment` starts at 1, then steps 2, 3, 4 run in
this order. -/
def specMoment (s : Store) (task : RenderTaskBuilder) : Nat :=
  specStepDepth s task.depth_stencil_grid
    (specStepOutputs s (outputRefs task) (specStepInputs s (inputRefs task) 1))

/-! ### Concrete fixtures used by witnesses and counterexamples -/

/-- A store in which cell `r` holds a fresh grid builder for grid
`(group 0, local r)`. -/
def s0ex : Store := fun r => FlowGridBuilder.new (AbstractGridID.mk 0 r)

/-- An empty builder scoped to group 0. -/
def b0ex : RenderFlowBuilder :=
  { drawing_nodes := [], used_grids := [], id := RenderFlowBuilderID.mk 0 0 }

/-- A builder in which grid `(group 0, local 0)` is registered with
`preserve_initial_content = true`. -/
def b1ex : RenderFlowBuilder := (add_grid_node b0ex (AbstractGridID.mk 0 0) true).1

/-- A task declaration reading the cells `ins`, writing the cells `outs`,
with depth/stencil cell `d`. -/
def exTask (ins outs : List GridRef) (d : GridRef) : RenderTaskBuilder :=
  { inputs := ins.map (fun r => RenderTaskInputBuilder.mk r "in"),
    outputs := outs.map (fun r => RenderTaskOutputBuilder.mk r "out"),
    depth_stencil_grid := d }

/-- Builds a write history on cell 1, then a task that reads cell 0 at
moment 4; the next task re-reads cell 0 and drags its `last_read_moment`
down to 1, after which a write to cell 0 gets moment 2. -/
def scenarioTasks : List RenderTaskBuilder :=
  [ exTask [] [1] 10, exTask [] [1] 11, exTask [] [1] 12,
    exTask [0] [1] 13, exTask [0] [] 14, exTask [] [0] 15 ]

/-! ### Lower bounds delivered by the moment computation -/

theorem inputLoop_ge (s : Store) (ins : List RenderTaskInputBuilder) :
    ∀ m : Nat, m ≤ inputLoop s ins m := by
  induction ins with
  | nil => intro m; exact Nat.le_refl m
  | cons i rest ih =>
    intro m
    refine Nat.le_trans ?_ (ih _)
    by_cases h : (s i.grid).last_write_moment ≥ m
    · simp only [inputLoop, if_pos h]
      exact Nat.le_succ_of_le h
    · simp only [inputLoop, if_neg h]
      exact Nat.le_refl m

theorem outputStep_ge (s : Store) (o : RenderTaskOutputBuilder) (m : Nat) :
    m ≤ outputStep s o m := by
  unfold outputStep
  by_cases h1 : (s o.grid).last_write_moment ≥ m
  · simp only [if_pos h1]
    by_cases h2 : (s o.grid).last_read_moment ≥ (s o.grid).last_write_moment + 1
    · simp only [if_pos h2]
      exact Nat.le_succ_of_le (Nat.le_trans (Nat.le_succ_of_le h1) h2)
    · simp only [if_neg h2]
      exact Nat.le_succ_of_le h1
  · simp only [if_neg h1]
    by_cases h2 : (s o.grid).last_read_moment ≥ m
    · simp only [if_pos h2]
      exact Nat.le_succ_of_le h2
    · simp only [if_neg h2]
      exact Nat.le_refl m

theorem outputLoop_ge (s : Store) (outs : List RenderTaskOutputBuilder) :
    ∀ m : Nat, m ≤ outputLoop s outs m := by
  induction outs with
  | nil => intro m; exact Nat.le_refl m
  | cons o rest ih =>
    intro m
    exact Nat.le_trans (outputStep_ge s o m) (ih _)

theorem depthStep_ge (s : Store) (d : GridRef) (m : Nat) : m ≤ depthStep s d m := by
  unfold depthStep
  by_cases h1 : (s d).last_read_moment ≥ m
  · simp only [if_pos h1]
    by_cases h2 : (s d).last_write_moment ≥ (s d).last_read_moment
    · simp only [if_pos h2]; exact Nat.le_trans h1 h2
    · simp only [if_neg h2]; exact h1
  · simp only [if_neg h1]
    by_cases h2 : (s d).last_write_moment ≥ m
    · simp only [if_pos h2]; exact h2
    · simp only [if_neg h2]; exact Nat.le_refl m

theorem depthStep_ge_read (s : Store) (d : GridRef) (m : Nat) :
    (s d).last_read_moment ≤ depthStep s d m := by
  unfold depthStep
  by_cases h1 : (s d).last_read_moment ≥ m
  · simp only [if_pos h1]
    by_cases h2 : (s d).last_write_moment ≥ (s d).last_read_moment
    · simp only [if_pos h2]; exact h2
    · simp only [if_neg h2]; exact Nat.le_refl _
  · simp only [if_neg h1]
    by_cases h2 : (s d).last_write_moment ≥ m
    · simp only [if_pos h2]
      exact Nat.le_trans (Nat.le_of_not_le h1) h2
    · simp only [if_neg h2]
      exact Nat.le_of_not_le h1

theorem depthStep_ge_write (s : Store) (d : GridRef) (m : Nat) :
    (s d).last_write_moment ≤ depthStep s d m := by
  unfold depthStep
  by_cases h1 : (s d).last_read_moment ≥ m
  · simp only [if_pos h1]
    by_cases h2 : (s d).last_write_moment ≥ (s d).last_read_moment
    · simp only [if_pos h2]; exact Nat.le_refl _
    · simp only [if_neg h2]; exact Nat.le_of_not_le h2
  · simp only [if_neg h1]
    by_cases h2 : (s d).last_write_moment ≥ m
    · simp only [if_pos h2]; exact Nat.le_refl _
    · simp only [if_neg h2]; exact Nat.le_of_not_le h2

theorem computeMoment_ge_one (s : Store) (t : RenderTaskBuilder) :
    1 ≤ computeMoment s t :=
  Nat.le_trans (inputLoop_ge s t.inputs 1)
    (Nat.le_trans (outputLoop_ge s t.outputs _) (depthStep_ge s t.depth_stencil_grid _))

theorem inputLoop_gt_write (s : Store) (ins : List RenderTaskInputBuilder)
    (r : GridRef) (hr : r ∈ ins.map RenderTaskInputBuilder.grid) :
    ∀ m : Nat, (s r).last_write_moment < inputLoop s ins m := by
  induction ins with
  | nil => cases hr
  | cons i rest ih =>
    intro m
    rw [List.map_cons, List.mem_cons] at hr
    rcases hr with hr | hr
    · subst hr
      refine Nat.lt_of_lt_of_le ?_ (inputLoop_ge s rest _)
      by_cases h : (s i.grid).last_write_moment ≥ m
      · simp only [if_pos h]; exact Nat.lt_succ_self _
      · simp only [if_neg h]; exact Nat.lt_of_not_le h
    · exact ih hr _

theorem outputStep_gt_write (s : Store) (o : RenderTaskOutputBuilder) (m : Nat) :
    (s o.grid).last_write_moment < outputStep s o m := by
  have h1 : (s o.grid).last_write_moment <
      (if (s o.grid).last_write_moment ≥ m then (s o.grid).last_write_moment + 1 else m) := by
    by_cases h : (s o.grid).last_write_moment ≥ m
    · simp only [if_pos h]; exact Nat.lt_succ_self _
    · simp only [if_neg h]; exact Nat.lt_of_not_le h
  unfold outputStep
  by_cases h2 : (s o.grid).last_read_moment ≥
      (if (s o.grid).last_write_moment ≥ m then (s o.grid).last_write_moment + 1 else m)
  · simp only [if_pos h2]
    exact Nat.lt_succ_of_lt (Nat.lt_of_lt_of_le h1 h2)
  · simp only [if_neg h2]
    exact h1

theorem outputStep_gt_read (s : Store) (o : RenderTaskOutputBuilder) (m : Nat) :
    (s o.grid).last_read_moment < outputStep s o m := by
  unfold outputStep
  by_cases h2 : (s o.grid).last_read_moment ≥
      (if (s o.grid).last_write_moment ≥ m then (s o.grid).last_write_moment + 1 else m)
  · simp only [if_pos h2]
    exact Nat.lt_succ_self _
  · simp only [if_neg h2]
    exact Nat.lt_of_not_le h2

theorem outputLoop_gt_write (s : Store) (outs : List RenderTaskOutputBuilder)
    (r : GridRef) (hr : r ∈ outs.map RenderTaskOutputBuilder.grid) :
    ∀ m : Nat, (s r).last_write_moment < outputLoop s outs m := by
  induction outs with
  | nil => cases hr
  | cons o rest ih =>
    intro m
    rw [List.map_cons, List.mem_cons] at hr
    rcases hr with hr | hr
    · subst hr
      exact Nat.lt_of_lt_of_le (outputStep_gt_write s o m) (outputLoop_ge s rest _)
    · exact ih hr _

theorem outputLoop_gt_read (s : Store) (outs : List RenderTaskOutputBuilder)
    (r : GridRef) (hr : r ∈ outs.map RenderTaskOutputBuilder.grid) :
    ∀ m : Nat, (s r).last_read_moment < outputLoop s outs m := by
  induction outs with
  | nil => cases hr
  | cons o rest ih =>
    intro m
    rw [List.map_cons, List.mem_cons] at hr
    rcases hr with hr | hr
    · subst hr
      exact Nat.lt_of_lt_of_le (outputStep_gt_read s o m) (outputLoop_ge s rest _)
    · exact ih hr _

theorem computeMoment_gt_input_write (s : Store) (t : RenderTaskBuilder)
    (r : GridRef) (hr : r ∈ inputRefs t) :
    (s r).last_write_moment < computeMoment s t :=
  Nat.lt_of_lt_of_le (inputLoop_gt_write s t.inputs r hr 1)
    (Nat.le_trans (outputLoop_ge s t.outputs _) (depthStep_ge s t.depth_stencil_grid _))

theorem computeMoment_gt_output_write (s : Store) (t : RenderTaskBuilder)
    (r : GridRef) (hr : r ∈ outputRefs t) :
    (s r).last_write_moment < computeMoment s t :=
  Nat.lt_of_lt_of_le (outputLoop_gt_write s t.outputs r hr _)
    (depthStep_ge s t.depth_stencil_grid _)

theorem computeMoment_gt_output_read (s : Store) (t : RenderTaskBuilder)
    (r : GridRef) (hr : r ∈ outputRefs t) :
    (s r).last_read_moment < computeMoment s t :=
  Nat.lt_of_lt_of_le (outputLoop_gt_read s t.outputs r hr _)
    (depthStep_ge s t.depth_stencil_grid _)

theorem computeMoment_ge_depth_write (s : Store) (t : RenderTaskBuilder) :
    (s t.depth_stencil_grid).last_write_moment ≤ computeMoment s t :=
  depthStep_ge_write s t.depth_stencil_grid _

theorem computeMoment_ge_depth_read (s : Store) (t : RenderTaskBuilder) :
    (s t.depth_stencil_grid).last_read_moment ≤ computeMoment s t :=
  depthStep_ge_read s t.depth_stencil_grid _

/-! ### What the commit phase does to each cell of the store -/

theorem setGrid_self (s : Store) (r : GridRef) (g : FlowGridBuilder) :
    setGrid s r g r = g := by
  simp [setGrid]

theorem setGrid_ne (s : Store) (r x : GridRef) (g : FlowGridBuilder) (h : x ≠ r) :
    setGrid s r g x = s x := by
  simp [setGrid, h]

theorem commitInputs_at (m : Nat) (ins : List RenderTaskInputBuilder) :
    ∀ (s : Store) (r : GridRef),
    commitInputs s m ins r =
      if r ∈ ins.map RenderTaskInputBuilder.grid
      then { s r with last_read_moment := m } else s r := by
  induction ins with
  | nil => intro s r; simp [commitInputs]
  | cons i rest ih =>
    intro s r
    simp only [commitInputs]
    rw [ih]
    by_cases hmem : r ∈ rest.map RenderTaskInputBuilder.grid
    · rw [if_pos hmem,
        if_pos (by rw [List.map_cons, List.mem_cons]; exact Or.inr hmem)]
      by_cases he : r = i.grid
      · subst he; rw [setGrid_self]
      · rw [setGrid_ne _ _ _ _ he]
    · rw [if_neg hmem]
      by_cases he : r = i.grid
      · rw [if_pos (by rw [List.map_cons, List.mem_cons]; exact Or.inl he)]
        subst he; rw [setGrid_self]
      · rw [if_neg (by rw [List.map_cons, List.mem_cons]; tauto),
          setGrid_ne _ _ _ _ he]

theorem commitOutputs_at (m : Nat) (outs : List RenderTaskOutputBuilder) :
    ∀ (s : Store) (r : GridRef),
    commitOutputs s m outs r =
      if r ∈ outs.map RenderTaskOutputBuilder.grid
      then { s r with last_write_moment := m, last_read_moment := m } else s r := by
  induction outs with
  | nil => intro s r; simp [commitOutputs]
  | cons o rest ih =>
    intro s r
    simp only [commitOutputs]
    rw [ih]
    by_cases hmem : r ∈ rest.map RenderTaskOutputBuilder.grid
    · rw [if_pos hmem,
        if_pos (by rw [List.map_cons, List.mem_cons]; exact Or.inr hmem)]
      by_cases he : r = o.grid
      · subst he; rw [setGrid_self]
      · rw [setGrid_ne _ _ _ _ he]
    · rw [if_neg hmem]
      by_cases he : r = o.grid
      · rw [if_pos (by rw [List.map_cons, List.mem_cons]; exact Or.inl he)]
        subst he; rw [setGrid_self]
      · rw [if_neg (by rw [List.map_cons, List.mem_cons]; tauto),
          setGrid_ne _ _ _ _ he]

theorem commitInputs_gridId (m : Nat) (ins : List RenderTaskInputBuilder)
    (s : Store) (r : GridRef) :
    (commitInputs s m ins r).grid_id = (s r).grid_id := by
  rw [commitInputs_at]
  split_ifs <;> rfl

theorem commitOutputs_gridId (m : Nat) (outs : List RenderTaskOutputBuilder)
    (s : Store) (r : GridRef) :
    (commitOutputs s m outs r).grid_id = (s r).grid_id := by
  rw [commitOutputs_at]
  split_ifs <;> rfl

/-- The resulting store of `add_render_task`, cell by cell: the depth/stencil
and the output cells get both moments set to the task's moment, the remaining
input cells get only `last_read_moment` set, the other cells are untouched. -/
theorem add_render_task_store (b : RenderFlowBuilder) (s : Store)
    (t : RenderTaskBuilder) (r : GridRef) :
    (add_render_task b s t).2 r =
      if r = t.depth_stencil_grid then
        { s r with last_write_moment := computeMoment s t,
                   last_read_moment := computeMoment s t }
      else if r ∈ outputRefs t then
        { s r with last_write_moment := computeMoment s t,
                   last_read_moment := computeMoment s t }
      else if r ∈ inputRefs t then
        { s r with last_read_moment := computeMoment s t }
      else s r := by
  have hrepr : (add_render_task b s t).2
      = commitDepth
          (commitOutputs (commitInputs s (computeMoment s t) t.inputs)
            (computeMoment s t) t.outputs)
          (computeMoment s t) t.depth_stencil_grid := rfl
  rw [hrepr]
  unfold commitDepth
  by_cases hd : r = t.depth_stencil_grid
  · subst hd
    rw [setGrid_self, if_pos rfl]
    have hgid :
        (commitOutputs (commitInputs s (computeMoment s t) t.inputs)
          (computeMoment s t) t.outputs t.depth_stencil_grid).grid_id
        = (s t.depth_stencil_grid).grid_id := by
      rw [commitOutputs_gridId, commitInputs_gridId]
    calc ({ commitOutputs (commitInputs s (computeMoment s t) t.inputs)
              (computeMoment s t) t.outputs t.depth_stencil_grid with
            last_write_moment := computeMoment s t,
            last_read_moment := computeMoment s t })
        = FlowGridBuilder.mk
            (commitOutputs (commitInputs s (computeMoment s t) t.inputs)
              (computeMoment s t) t.outputs t.depth_stencil_grid).grid_id
            (computeMoment s t) (computeMoment s t) := rfl
      _ = FlowGridBuilder.mk (s t.depth_stencil_grid).grid_id
            (computeMoment s t) (computeMoment s t) := by rw [hgid]
      _ = { s t.depth_stencil_grid with
            last_write_moment := computeMoment s t,
            last_read_moment := computeMoment s t } := rfl
  · rw [setGrid_ne _ _ _ _ hd, if_neg hd, commitOutputs_at]
    by_cases ho : r ∈ t.outputs.map RenderTaskOutputBuilder.grid
    · rw [if_pos ho, if_pos (show r ∈ outputRefs t from ho)]
      have hgid : (commitInputs s (computeMoment s t) t.inputs r).grid_id
          = (s r).grid_id := commitInputs_gridId _ _ _ _
      calc ({ commitInputs s (computeMoment s t) t.inputs r with
              last_write_moment := computeMoment s t,
              last_read_moment := computeMoment s t })
          = FlowGridBuilder.mk
              (commitInputs s (computeMoment s t) t.inputs r).grid_id
              (computeMoment s t) (computeMoment s t) := rfl
        _ = FlowGridBuilder.mk (s r).grid_id (computeMoment s t) (computeMoment s t) := by
              rw [hgid]
        _ = { s r with last_write_moment := computeMoment s t,
                       last_read_moment := computeMoment s t } := rfl
    · rw [if_neg ho, if_neg (show ¬ r ∈ outputRefs t from ho), commitInputs_at]
      by_cases hi : r ∈ t.inputs.map RenderTaskInputBuilder.grid
      · rw [if_pos hi, if_pos (show r ∈ inputRefs t from hi)]
      · rw [if_neg hi, if_neg (show ¬ r ∈ inputRefs t from hi)]

/-- A cell the task does not bind at all is left untouched. -/
theorem add_render_task_untouched (b : RenderFlowBuilder) (s : Store)
    (t : RenderTaskBuilder) (r : GridRef) (h : r ∉ taskRefs t) :
    (add_render_task b s t).2 r = s r := by
  rw [add_render_task_store]
  have h1 : ¬ r ∈ inputRefs t := fun hr =>
    h (by unfold taskRefs; rw [List.append_assoc, List.mem_append]; exact Or.inl hr)
  have h2 : ¬ r ∈ outputRefs t := fun hr =>
    h (by unfold taskRefs
          rw [List.append_assoc, List.mem_append, List.mem_append]
          exact Or.inr (Or.inl hr))
  have h3 : ¬ r = t.depth_stencil_grid := fun hr =>
    h (by unfold taskRefs
          rw [List.append_assoc, List.mem_append, List.mem_append]
          exact Or.inr (Or.inr (by rw [hr]; exact List.mem_singleton.mpr rfl)))
  rw [if_neg h3, if_neg h2, if_neg h1]

/-- Every call leaves every cell's `last_write_moment` at least where it was. -/
theorem add_render_task_write_mono (b : RenderFlowBuilder) (s : Store)
    (t : RenderTaskBuilder) (r : GridRef) :
    (s r).last_write_moment ≤ ((add_render_task b s t).2 r).last_write_moment := by
  rw [add_render_task_store]
  by_cases h1 : r = t.depth_stencil_grid
  · rw [if_pos h1]
    show (s r).last_write_moment ≤ computeMoment s t
    rw [h1]; exact computeMoment_ge_depth_write s t
  · rw [if_neg h1]
    by_cases h2 : r ∈ outputRefs t
    · rw [if_pos h2]
      exact Nat.le_of_lt (computeMoment_gt_output_write s t r h2)
    · rw [if_neg h2]
      by_cases h3 : r ∈ inputRefs t
      · rw [if_pos h3]
      · rw [if_neg h3]

/-- A call leaves `last_read_moment` at least where it was on every cell it
does not bind as an input. -/
theorem add_render_task_read_mono (b : RenderFlowBuilder) (s : Store)
    (t : RenderTaskBuilder) (r : GridRef) (h : r ∉ inputRefs t) :
    (s r).last_read_moment ≤ ((add_render_task b s t).2 r).last_read_moment := by
  rw [add_render_task_store]
  by_cases h1 : r = t.depth_stencil_grid
  · rw [if_pos h1]
    show (s r).last_read_moment ≤ computeMoment s t
    rw [h1]; exact computeMoment_ge_depth_read s t
  · rw [if_neg h1]
    by_cases h2 : r ∈ outputRefs t
    · rw [if_pos h2]
      exact Nat.le_of_lt (computeMoment_gt_output_read s t r h2)
    · rw [if_neg h2, if_neg h]

/-- `last_write_moment` is non-decreasing across any sequence of calls. -/
theorem runTasks_write_mono (ts : List RenderTaskBuilder) :
    ∀ (b : RenderFlowBuilder) (s : Store) (r : GridRef),
    (s r).last_write_moment ≤ ((runTasks b s ts).2 r).last_write_moment := by
  induction ts with
  | nil => intro b s r; exact Nat.le_refl _
  | cons t ts ih =>
    intro b s r
    exact Nat.le_trans (add_render_task_write_mono b s t r)
      (ih (add_render_task b s t).1 (add_render_task b s t).2 r)

/-- `last_read_moment` is non-decreasing across a sequence of calls none of
which binds the cell as an input. -/
theorem runTasks_read_mono (ts : List RenderTaskBuilder) (r : GridRef)
    (h : ∀ t ∈ ts, r ∉ inputRefs t) :
    ∀ (b : RenderFlowBuilder) (s : Store),
    (s r).last_read_moment ≤ ((runTasks b s ts).2 r).last_read_moment := by
  induction ts with
  | nil => intro b s; exact Nat.le_refl _
  | cons t ts ih =>
    intro b s
    refine Nat.le_trans
      (add_render_task_read_mono b s t r (h t (List.mem_cons_self t ts))) ?_
    exact ih (fun u hu => h u (List.mem_cons_of_mem t hu))
      (add_render_task b s t).1 (add_render_task b s t).2

/-- The builder side of `add_render_task`: the sketch list grows by exactly
the emitted sketch, everything else (`used_grids`, `id`) is unchanged. -/
theorem add_render_task_builder (b : RenderFlowBuilder) (s : Store)
    (t : RenderTaskBuilder) :
    (add_render_task b s t).1.drawing_nodes = b.drawing_nodes ++ [emitted_sketch s t]
    ∧ (add_render_task b s t).1.used_grids = b.used_grids
    ∧ (add_render_task b s t).1.id = b.id :=
  ⟨rfl, rfl, rfl⟩

/-- The emitted sketch carries the computed moment. -/
theorem emitted_sketch_moment (s : Store) (t : RenderTaskBuilder) :
    (emitted_sketch s t).moment = computeMoment s t := rfl

/-- After the call, a cell the task wrote (output or depth/stencil binding)
has `last_write_moment` equal to the task's moment. -/
theorem add_render_task_write_eq (b : RenderFlowBuilder) (s : Store)
    (t : RenderTaskBuilder) (r : GridRef)
    (h : r ∈ outputRefs t ∨ r = t.depth_stencil_grid) :
    ((add_render_task b s t).2 r).last_write_moment = computeMoment s t := by
  rw [add_render_task_store]
  by_cases h1 : r = t.depth_stencil_grid
  · rw [if_pos h1]
  · rw [if_neg h1]
    rcases h with h | h
    · rw [if_pos h]
    · exact absurd h h1

/-- After the call, a cell the task bound in any way has `last_read_moment`
equal to the task's moment. -/
theorem add_render_task_read_eq (b : RenderFlowBuilder) (s : Store)
    (t : RenderTaskBuilder) (r : GridRef)
    (h : r ∈ inputRefs t ∨ r ∈ outputRefs t ∨ r = t.depth_stencil_grid) :
    ((add_render_task b s t).2 r).last_read_moment = computeMoment s t := by
  rw [add_render_task_store]
  by_cases h1 : r = t.depth_stencil_grid
  · rw [if_pos h1]
  · rw [if_neg h1]
    by_cases h2 : r ∈ outputRefs t
    · rw [if_pos h2]
    · rw [if_neg h2]
      rcases h with h | h | h
      · rw [if_pos h]
      · exact absurd h h2
      · exact absurd h h1

/-! ### The coded loops compute the moment the specification describes -/

theorem inputLoop_eq_spec (s : Store) (ins : List RenderTaskInputBuilder) :
    ∀ m : Nat, inputLoop s ins m
      = specStepInputs s (ins.map RenderTaskInputBuilder.grid) m := by
  induction ins with
  | nil => intro m; rfl
  | cons i rest ih =>
    intro m
    simp only [inputLoop, List.map_cons, specStepInputs, List.foldl_cons]
    exact ih _

theorem outputLoop_eq_spec (s : Store) (outs : List RenderTaskOutputBuilder) :
    ∀ m : Nat, outputLoop s outs m
      = specStepOutputs s (outs.map RenderTaskOutputBuilder.grid) m := by
  induction outs with
  | nil => intro m; rfl
  | cons o rest ih =>
    intro m
    simp only [outputLoop, List.map_cons, specStepOutputs, List.foldl_cons]
    exact ih _

theorem depthStep_eq_spec (s : Store) (d : GridRef) (m : Nat) :
    depthStep s d m = specStepDepth s d m := rfl

/-- The moment computed by `add_render_task` is exactly the four-step moment
of specification section 4.2. -/
theorem computeMoment_eq_spec (s : Store) (t : RenderTaskBuilder) :
    computeMoment s t = specMoment s t := by
  unfold computeMoment specMoment
  rw [inputLoop_eq_spec, outputLoop_eq_spec, depthStep_eq_spec]
  rfl

/-! ### Fresh cells leave the moment at 1 -/

theorem inputLoop_fresh (s : Store) (ins : List RenderTaskInputBuilder)
    (h : ∀ i ∈ ins, (s i.grid).last_write_moment = 0) :
    ∀ m : Nat, 1 ≤ m → inputLoop s ins m = m := by
  induction ins with
  | nil => intro m _; rfl
  | cons i rest ih =>
    intro m hm
    have hw : (s i.grid).last_write_moment = 0 := h i (List.mem_cons_self i rest)
    have hcond : ¬ (s i.grid).last_write_moment ≥ m := by
      rw [hw]; exact fun hle => Nat.not_succ_le_zero 0 (Nat.le_trans hm hle)
    simp only [inputLoop, if_neg hcond]
    exact ih (fun j hj => h j (List.mem_cons_of_mem i hj)) m hm

theorem outputStep_fresh (s : Store) (o : RenderTaskOutputBuilder)
    (hw : (s o.grid).last_write_moment = 0) (hr : (s o.grid).last_read_moment = 0)
    (m : Nat) (hm : 1 ≤ m) : outputStep s o m = m := by
  unfold outputStep
  have hcw : ¬ (s o.grid).last_write_moment ≥ m := by
    rw [hw]; exact fun hle => Nat.not_succ_le_zero 0 (Nat.le_trans hm hle)
  have hcr : ¬ (s o.grid).last_read_moment ≥ m := by
    rw [hr]; exact fun hle => Nat.not_succ_le_zero 0 (Nat.le_trans hm hle)
  simp only [if_neg hcw, if_neg hcr]

theorem outputLoop_fresh (s : Store) (outs : List RenderTaskOutputBuilder)
    (h : ∀ o ∈ outs, (s o.grid).last_write_moment = 0 ∧ (s o.grid).last_read_moment = 0) :
    ∀ m : Nat, 1 ≤ m → outputLoop s outs m = m := by
  induction outs with
  | nil => intro m _; rfl
  | cons o rest ih =>
    intro m hm
    have ho := h o (List.mem_cons_self o rest)
    simp only [outputLoop, outputStep_fresh s o ho.1 ho.2 m hm]
    exact ih (fun u hu => h u (List.mem_cons_of_mem o hu)) m hm

theorem depthStep_fresh (s : Store) (d : GridRef)
    (hw : (s d).last_write_moment = 0) (hr : (s d).last_read_moment = 0)
    (m : Nat) (hm : 1 ≤ m) : depthStep s d m = m := by
  unfold depthStep
  have hcr : ¬ (s d).last_read_moment ≥ m := by
    rw [hr]; exact fun hle => Nat.not_succ_le_zero 0 (Nat.le_trans hm hle)
  have hcw : ¬ (s d).last_write_moment ≥ m := by
    rw [hw]; exact fun hle => Nat.not_succ_le_zero 0 (Nat.le_trans hm hle)
  simp only [if_neg hcr, if_neg hcw]

theorem mem_taskRefs_input (t : RenderTaskBuilder) (r : GridRef)
    (h : r ∈ inputRefs t) : r ∈ taskRefs t := by
  unfold taskRefs
  rw [List.append_assoc, List.mem_append]
  exact Or.inl h

theorem mem_taskRefs_output (t : RenderTaskBuilder) (r : GridRef)
    (h : r ∈ outputRefs t) : r ∈ taskRefs t := by
  unfold taskRefs
  rw [List.append_assoc, List.mem_append, List.mem_append]
  exact Or.inr (Or.inl h)

theorem mem_taskRefs_depth (t : RenderTaskBuilder) :
    t.depth_stencil_grid ∈ taskRefs t := by
  unfold taskRefs
  rw [List.append_assoc, List.mem_append, List.mem_append]
  exact Or.inr (Or.inr (List.mem_singleton.mpr rfl))

/-- A task all of whose cells are fresh (both moments 0) gets moment 1. -/
theorem computeMoment_fresh (s : Store) (t : RenderTaskBuilder)
    (h : ∀ r ∈ taskRefs t,
      (s r).last_write_moment = 0 ∧ (s r).last_read_moment = 0) :
    computeMoment s t = 1 := by
  unfold computeMoment
  rw [inputLoop_fresh s t.inputs
      (fun i hi => (h i.grid (mem_taskRefs_input t i.grid
        (List.mem_map_of_mem RenderTaskInputBuilder.grid hi))).1) 1 (Nat.le_refl 1),
    outputLoop_fresh s t.outputs
      (fun o ho => h o.grid (mem_taskRefs_output t o.grid
        (List.mem_map_of_mem RenderTaskOutputBuilder.grid ho))) 1 (Nat.le_refl 1),
    depthStep_fresh s t.depth_stencil_grid
      (h t.depth_stencil_grid (mem_taskRefs_depth t)).1
      (h t.depth_stencil_grid (mem_taskRefs_depth t)).2 1 (Nat.le_refl 1)]

/-! ### Association-list lemmas for the used-grids map -/

theorem find_map_replace (k : AbstractGridID) (v : FlowGridSketch) :
    ∀ m : List (AbstractGridID × FlowGridSketch),
    (m.map (fun p => if p.1 == k then (k, v) else p)).find? (fun p => p.1 == k)
      = if (m.find? (fun p => p.1 == k)).isSome then some (k, v) else none := by
  intro m
  induction m with
  | nil => rfl
  | cons p rest ih =>
    by_cases hp : p.1 = k
    · have hb : (p.1 == k) = true := beq_iff_eq.mpr hp
      simp [List.find?, hb]
    · have hb : (p.1 == k) = false := beq_eq_false_iff_ne.mpr hp
      simp only [List.map_cons, hb, Bool.false_eq_true, if_false]
      rw [show List.find? (fun p => p.1 == k)
            (p :: List.map (fun p => if (p.1 == k) = true then (k, v) else p) rest)
          = List.find? (fun p => p.1 == k)
            (List.map (fun p => if (p.1 == k) = true then (k, v) else p) rest) by
        simp [List.find?, hb]]
      rw [show List.find? (fun p => p.1 == k) (p :: rest)
          = List.find? (fun p => p.1 == k) rest by simp [List.find?, hb]]
      exact ih

theorem find_append_single (k : AbstractGridID) (v : FlowGridSketch) :
    ∀ m : List (AbstractGridID × FlowGridSketch),
    m.find? (fun p => p.1 == k) = none →
    (m ++ [(k, v)]).find? (fun p => p.1 == k) = some (k, v) := by
  intro m
  induction m with
  | nil =>
    intro _
    simp [List.find?]
  | cons p rest ih =>
    intro h
    cases hb : (p.1 == k) with
    | true =>
      exfalso
      have hps : List.find? (fun p => p.1 == k) (p :: rest) = some p := by
        simp [List.find?, hb]
      rw [hps] at h
      cases h
    | false =>
      have hrest : List.find? (fun p => p.1 == k) rest = none := by
        have hstep : List.find? (fun p => p.1 == k) (p :: rest)
            = List.find? (fun p => p.1 == k) rest := by simp [List.find?, hb]
        rw [hstep] at h
        exact h
      rw [show (p :: rest) ++ [(k, v)] = p :: (rest ++ [(k, v)]) from rfl]
      rw [show List.find? (fun p => p.1 == k) (p :: (rest ++ [(k, v)]))
          = List.find? (fun p => p.1 == k) (rest ++ [(k, v)]) by
        simp [List.find?, hb]]
      exact ih hrest

/-- After an insert, the lookup for the inserted key finds the new value. -/
theorem mapGet_mapInsert (m : List (AbstractGridID × FlowGridSketch))
    (k : AbstractGridID) (v : FlowGridSketch) :
    mapGet (mapInsert m k v) k = some v := by
  unfold mapGet mapInsert
  by_cases hc : (m.find? (fun p => p.1 == k)).isSome
  · rw [if_pos hc, find_map_replace, if_pos hc]
  · rw [if_neg hc,
      find_append_single k v m (Option.not_isSome_iff_eq_none.mp hc)]

/-! ### The claims -/

/-- C1: for every builder state and every task declaration, `add_render_task`
computes the task's moment exactly by the four-step algorithm of spec section
4.2 (`specMoment`: moment starts at 1, then the input RAW step, then the
output WAW-then-WAR steps, then the depth/stencil inclusive read-then-write
steps, in exactly this order), and the emitted `RenderTaskSketch`, appended to
the builder's sketch list, carries this moment. -/
theorem flow_C1_moment_algorithm (b : RenderFlowBuilder) (s : Store)
    (t : RenderTaskBuilder) :
    (add_render_task b s t).1.drawing_nodes = b.drawing_nodes ++ [emitted_sketch s t]
    ∧ (emitted_sketch s t).moment = specMoment s t :=
  ⟨rfl, computeMoment_eq_spec s t⟩

/-- C2: after `add_render_task` returns with moment `m = computeMoment s t`,
every input cell has `last_read_moment = m`, every output cell has
`last_write_moment = m` and `last_read_moment = m`, the depth/stencil cell has
both equal to `m`; every cell the task does not bind is unchanged, the
`used_grids` map (and with it every preserve flag) is unchanged, and the
previously emitted sketches are unchanged with the new sketch appended. -/
theorem flow_C2_commit_effect (b : RenderFlowBuilder) (s : Store)
    (t : RenderTaskBuilder) (r : GridRef) :
    (r ∈ inputRefs t →
      ((add_render_task b s t).2 r).last_read_moment = computeMoment s t)
    ∧ (r ∈ outputRefs t →
      ((add_render_task b s t).2 r).last_write_moment = computeMoment s t
      ∧ ((add_render_task b s t).2 r).last_read_moment = computeMoment s t)
    ∧ (r = t.depth_stencil_grid →
      ((add_render_task b s t).2 r).last_write_moment = computeMoment s t
      ∧ ((add_render_task b s t).2 r).last_read_moment = computeMoment s t)
    ∧ (r ∉ taskRefs t → (add_render_task b s t).2 r = s r)
    ∧ (add_render_task b s t).1.used_grids = b.used_grids
    ∧ (add_render_task b s t).1.drawing_nodes
        = b.drawing_nodes ++ [emitted_sketch s t] := by
  refine ⟨?_, ?_, ?_, add_render_task_untouched b s t r, rfl, rfl⟩
  · intro h
    exact add_render_task_read_eq b s t r (Or.inl h)
  · intro h
    exact ⟨add_render_task_write_eq b s t r (Or.inl h),
      add_render_task_read_eq b s t r (Or.inr (Or.inl h))⟩
  · intro h
    exact ⟨add_render_task_write_eq b s t r (Or.inr h),
      add_render_task_read_eq b s t r (Or.inr (Or.inr h))⟩

/-- C2 witness: for the concrete task reading cell 0 and writing cell 2, the
output cell 2 ends with both moments equal to the computed moment. -/
theorem flow_C2_commit_effect_witness :
    ((add_render_task b0ex s0ex (exTask [0] [2] 1)).2 2).last_write_moment
      = computeMoment s0ex (exTask [0] [2] 1)
    ∧ ((add_render_task b0ex s0ex (exTask [0] [2] 1)).2 2).last_read_moment
      = computeMoment s0ex (exTask [0] [2] 1) :=
  (flow_C2_commit_effect b0ex s0ex (exTask [0] [2] 1) 2).2.1 (by decide)

/-- C3 counterexample: after the first four scenario tasks, cell 0 has
`last_read_moment = 4`; the fifth call (a task that merely re-reads cell 0)
lowers it to 1, so the two moments are not non-decreasing across calls. -/
theorem flow_C3_counterexample :
    ((runTasks b0ex s0ex (scenarioTasks.take 4)).2 0).last_read_moment = 4
    ∧ ((add_render_task (runTasks b0ex s0ex (scenarioTasks.take 4)).1
        (runTasks b0ex s0ex (scenarioTasks.take 4)).2
        (exTask [0] [] 14)).2 0).last_read_moment = 1
    ∧ ¬ ((4 : Nat) ≤ 1) := by decide

/-- C3 amended: across any `add_render_task` call (and hence any sequence of
calls), every grid's `last_write_moment` is non-decreasing; `last_read_moment`
is non-decreasing for every grid the call does not bind as an input, but an
input binding overwrites it with the task's moment, which may be smaller. -/
theorem flow_C3_amended_monotonicity (b : RenderFlowBuilder) (s : Store)
    (t : RenderTaskBuilder) (ts : List RenderTaskBuilder) (r : GridRef) :
    ((s r).last_write_moment ≤ ((add_render_task b s t).2 r).last_write_moment)
    ∧ ((s r).last_write_moment ≤ ((runTasks b s ts).2 r).last_write_moment)
    ∧ (r ∉ inputRefs t →
        (s r).last_read_moment ≤ ((add_render_task b s t).2 r).last_read_moment) :=
  ⟨add_render_task_write_mono b s t r, runTasks_write_mono ts b s r,
    add_render_task_read_mono b s t r⟩

/-- C3 witness: the amended monotonicity at a concrete call on a cell that is
not an input of the task. -/
theorem flow_C3_amended_monotonicity_witness :
    (s0ex 5).last_read_moment
      ≤ ((add_render_task b0ex s0ex (exTask [] [0] 1)).2 5).last_read_moment :=
  (flow_C3_amended_monotonicity b0ex s0ex (exTask [] [0] 1) [] 5).2.2 (by decide)

/-- C4: read-after-write ordering. If a task `t2`, added after `t1` with any
tasks `mid` in between, reads via an input binding a cell that `t1` wrote (via
an output or the depth/stencil binding), then the moment of `t2` is strictly
greater than the moment of `t1`. -/
theorem flow_C4_read_after_write (b : RenderFlowBuilder) (s : Store)
    (t1 : RenderTaskBuilder) (mid : List RenderTaskBuilder) (t2 : RenderTaskBuilder)
    (h : ∃ r, r ∈ inputRefs t2 ∧ (r ∈ outputRefs t1 ∨ r = t1.depth_stencil_grid)) :
    computeMoment s t1 <
      computeMoment
        (runTasks (add_render_task b s t1).1 (add_render_task b s t1).2 mid).2 t2 := by
  obtain ⟨r, hin, hw⟩ := h
  have h1 : ((add_render_task b s t1).2 r).last_write_moment = computeMoment s t1 :=
    add_render_task_write_eq b s t1 r hw
  have h2 := runTasks_write_mono mid (add_render_task b s t1).1
    (add_render_task b s t1).2 r
  rw [h1] at h2
  exact Nat.lt_of_le_of_lt h2
    (computeMoment_gt_input_write
      (runTasks (add_render_task b s t1).1 (add_render_task b s t1).2 mid).2 t2 r hin)

/-- C4 witness: a task writes cell 0 at moment 1, the next task reads it and
gets moment 2. -/
theorem flow_C4_read_after_write_witness :
    computeMoment s0ex (exTask [] [0] 1) <
      computeMoment
        (runTasks (add_render_task b0ex s0ex (exTask [] [0] 1)).1
          (add_render_task b0ex s0ex (exTask [] [0] 1)).2 []).2
        (exTask [0] [] 2) :=
  flow_C4_read_after_write b0ex s0ex (exTask [] [0] 1) [] (exTask [0] [] 2)
    ⟨0, by decide, Or.inl (by decide)⟩

/-- C5 counterexample: in the concrete scenario, the fourth task reads cell 0
via an input binding and gets moment 4; the sixth task writes cell 0 via an
output binding yet gets moment 2, because the fifth task re-read cell 0 and
lowered its `last_read_moment` to 1.  So the claim's conclusion
`moment(T2) > moment(T1)` fails as stated. -/
theorem flow_C5_counterexample :
    computeMoment (runTasks b0ex s0ex (scenarioTasks.take 3)).2 (exTask [0] [1] 13) = 4
    ∧ computeMoment (runTasks b0ex s0ex (scenarioTasks.take 5)).2 (exTask [] [0] 15) = 2
    ∧ 0 ∈ inputRefs (exTask [0] [1] 13)
    ∧ 0 ∈ outputRefs (exTask [] [0] 15)
    ∧ ¬ ((4 : Nat) < 2) := by decide

/-- C5 amended: if `t2`, added after `t1`, writes via an output binding a cell
that `t1` wrote via an output binding, then `moment(t2) > moment(t1)`; if the
overlap is instead through a cell `t1` read via an input binding, the strict
ordering additionally requires that no task added between them binds that cell
as an input (such a re-read can lower the cell's `last_read_moment`). -/
theorem flow_C5_amended_write_ordering (b : RenderFlowBuilder) (s : Store)
    (t1 : RenderTaskBuilder) (mid : List RenderTaskBuilder) (t2 : RenderTaskBuilder)
    (h : ∃ r, r ∈ outputRefs t2 ∧
      (r ∈ outputRefs t1 ∨ (r ∈ inputRefs t1 ∧ ∀ u ∈ mid, r ∉ inputRefs u))) :
    computeMoment s t1 <
      computeMoment
        (runTasks (add_render_task b s t1).1 (add_render_task b s t1).2 mid).2 t2 := by
  obtain ⟨r, hout, hcase⟩ := h
  rcases hcase with hw | ⟨hr, hmid⟩
  · have h1 : ((add_render_task b s t1).2 r).last_write_moment = computeMoment s t1 :=
      add_render_task_write_eq b s t1 r (Or.inl hw)
    have h2 := runTasks_write_mono mid (add_render_task b s t1).1
      (add_render_task b s t1).2 r
    rw [h1] at h2
    exact Nat.lt_of_le_of_lt h2
      (computeMoment_gt_output_write
        (runTasks (add_render_task b s t1).1 (add_render_task b s t1).2 mid).2 t2 r hout)
  · have h1 : ((add_render_task b s t1).2 r).last_read_moment = computeMoment s t1 :=
      add_render_task_read_eq b s t1 r (Or.inl hr)
    have h2 := runTasks_read_mono mid r hmid (add_render_task b s t1).1
      (add_render_task b s t1).2
    rw [h1] at h2
    exact Nat.lt_of_le_of_lt h2
      (computeMoment_gt_output_read
        (runTasks (add_render_task b s t1).1 (add_render_task b s t1).2 mid).2 t2 r hout)

/-- C5 witness: a task reads cell 0 at moment 1 and, with no task in between,
a task that then writes cell 0 gets moment 2. -/
theorem flow_C5_amended_write_ordering_witness :
    computeMoment s0ex (exTask [0] [] 1) <
      computeMoment
        (runTasks (add_render_task b0ex s0ex (exTask [0] [] 1)).1
          (add_render_task b0ex s0ex (exTask [0] [] 1)).2 []).2
        (exTask [] [0] 2) :=
  flow_C5_amended_write_ordering b0ex s0ex (exTask [0] [] 1) [] (exTask [] [0] 2)
    ⟨0, by decide, Or.inr ⟨by decide, fun u hu => absurd hu (List.not_mem_nil u)⟩⟩

/-- C6: two tasks over pairwise disjoint cell sets, none of whose cells was
touched before (both moments 0), both get moment 1, regardless of which of
the two is added first. -/
theorem flow_C6_independence (b : RenderFlowBuilder) (s : Store)
    (t1 t2 : RenderTaskBuilder)
    (h1 : ∀ r ∈ taskRefs t1, (s r).last_write_moment = 0 ∧ (s r).last_read_moment = 0)
    (h2 : ∀ r ∈ taskRefs t2, (s r).last_write_moment = 0 ∧ (s r).last_read_moment = 0)
    (hd : ∀ r ∈ taskRefs t1, r ∉ taskRefs t2) :
    computeMoment s t1 = 1
    ∧ computeMoment (add_render_task b s t1).2 t2 = 1
    ∧ computeMoment s t2 = 1
    ∧ computeMoment (add_render_task b s t2).2 t1 = 1 := by
  have hd2 : ∀ r ∈ taskRefs t2, r ∉ taskRefs t1 := fun r hr2 hr1 => hd r hr1 hr2
  refine ⟨computeMoment_fresh s t1 h1, ?_, computeMoment_fresh s t2 h2, ?_⟩
  · apply computeMoment_fresh
    intro r hr
    rw [add_render_task_untouched b s t1 r (hd2 r hr)]
    exact h2 r hr
  · apply computeMoment_fresh
    intro r hr
    rw [add_render_task_untouched b s t2 r (hd r hr)]
    exact h1 r hr

/-- C6 witness: two disjoint fresh single-output tasks both get moment 1 in
either insertion order. -/
theorem flow_C6_independence_witness :
    computeMoment s0ex (exTask [] [0] 1) = 1
    ∧ computeMoment (add_render_task b0ex s0ex (exTask [] [0] 1)).2 (exTask [] [2] 3) = 1
    ∧ computeMoment s0ex (exTask [] [2] 3) = 1
    ∧ computeMoment (add_render_task b0ex s0ex (exTask [] [2] 3)).2 (exTask [] [0] 1) = 1 :=
  flow_C6_independence b0ex s0ex (exTask [] [0] 1) (exTask [] [2] 3)
    (by decide) (by decide) (by decide)

/-- C7: depth/stencil inclusive bound.  If a later task `t2` uses the same
depth/stencil cell as `t1` then `moment(t2) ≥ moment(t1)` (whatever else the
two tasks or the tasks in between touch); and in the concrete case where a
fresh cell 0 is the only binding of both tasks, both get the equal moment 1. -/
theorem flow_C7_depth_inclusive :
    (∀ (b : RenderFlowBuilder) (s : Store) (t1 : RenderTaskBuilder)
        (mid : List RenderTaskBuilder) (t2 : RenderTaskBuilder),
      t2.depth_stencil_grid = t1.depth_stencil_grid →
      computeMoment s t1 ≤
        computeMoment
          (runTasks (add_render_task b s t1).1 (add_render_task b s t1).2 mid).2 t2)
    ∧ computeMoment s0ex (exTask [] [] 0) = 1
    ∧ computeMoment (add_render_task b0ex s0ex (exTask [] [] 0)).2 (exTask [] [] 0) = 1 := by
  refine ⟨?_, by decide, by decide⟩
  intro b s t1 mid t2 hdep
  have h1 : ((add_render_task b s t1).2 t1.depth_stencil_grid).last_write_moment
      = computeMoment s t1 :=
    add_render_task_write_eq b s t1 t1.depth_stencil_grid (Or.inr rfl)
  have h2 := runTasks_write_mono mid (add_render_task b s t1).1
    (add_render_task b s t1).2 t1.depth_stencil_grid
  rw [h1] at h2
  refine Nat.le_trans h2 ?_
  have h3 := computeMoment_ge_depth_write
    (runTasks (add_render_task b s t1).1 (add_render_task b s t1).2 mid).2 t2
  rw [hdep] at h3
  exact h3

/-- C7 witness: the general bound applied to two tasks sharing depth cell 0
with nothing else, giving 1 ≤ 1. -/
theorem flow_C7_depth_inclusive_witness :
    computeMoment s0ex (exTask [] [] 0) ≤
      computeMoment
        (runTasks (add_render_task b0ex s0ex (exTask [] [] 0)).1
          (add_render_task b0ex s0ex (exTask [] [] 0)).2 []).2
        (exTask [] [] 0) :=
  flow_C7_depth_inclusive.1 b0ex s0ex (exTask [] [] 0) [] (exTask [] [] 0) rfl

/-- C8: `add_grid_node` fails with the foreign-resource error exactly when the
grid's group differs from the builder's; it fails with the duplicate-resource
error exactly when the group matches and the grid is already registered;
otherwise it succeeds, the returned handle has both moments 0, and the stored
sketch has `preserve_final_content = false` and `preserve_initial_content`
equal to the given flag. -/
theorem flow_C8_registration (b : RenderFlowBuilder) (grid : AbstractGridID) (p : Bool) :
    ((add_grid_node b grid p).2 = Except.error AddGridError.foreignResource
      ↔ grid.group_id ≠ b.id.group_id)
    ∧ ((add_grid_node b grid p).2 = Except.error AddGridError.duplicateResource
      ↔ grid.group_id = b.id.group_id ∧ (mapGet b.used_grids grid).isSome = true)
    ∧ (grid.group_id = b.id.group_id → mapGet b.used_grids grid = none →
        (add_grid_node b grid p).2 = Except.ok (FlowGridBuilder.new grid)
        ∧ (FlowGridBuilder.new grid).last_write_moment = 0
        ∧ (FlowGridBuilder.new grid).last_read_moment = 0
        ∧ mapGet (add_grid_node b grid p).1.used_grids grid
            = some (FlowGridSketch.new p)
        ∧ (FlowGridSketch.new p).preserve_final_content = false
        ∧ (FlowGridSketch.new p).preserve_initial_content = p) := by
  by_cases hg : grid.group_id ≠ b.id.group_id
  · have he : add_grid_node b grid p = (b, Except.error AddGridError.foreignResource) := by
      unfold add_grid_node
      rw [if_pos hg]
    rw [he]
    exact ⟨⟨fun _ => hg, fun _ => rfl⟩,
      ⟨fun h => AddGridError.noConfusion (Except.error.inj h), fun h => absurd h.1 hg⟩,
      fun h _ => absurd h hg⟩
  · have hgeq : grid.group_id = b.id.group_id := not_ne_iff.mp hg
    by_cases hold : (mapGet b.used_grids grid).isSome
    · have he : add_grid_node b grid p
          = ({ b with used_grids :=
                mapInsert b.used_grids grid (FlowGridSketch.new p) },
             Except.error AddGridError.duplicateResource) := by
        unfold add_grid_node
        rw [if_neg hg, if_pos hold]
      rw [he]
      refine ⟨⟨fun h => AddGridError.noConfusion (Except.error.inj h),
        fun hne => absurd hgeq hne⟩,
        ⟨fun _ => ⟨hgeq, hold⟩, fun _ => rfl⟩, ?_⟩
      intro _ hnone
      rw [hnone] at hold
      exact absurd hold (by decide)
    · have he : add_grid_node b grid p
          = ({ b with used_grids :=
                mapInsert b.used_grids grid (FlowGridSketch.new p) },
             Except.ok (FlowGridBuilder.new grid)) := by
        unfold add_grid_node
        rw [if_neg hg, if_neg hold]
      rw [he]
      refine ⟨⟨fun h => Except.noConfusion h, fun hne => absurd hgeq hne⟩,
        ⟨fun h => Except.noConfusion h, fun h => absurd h.2 hold⟩, ?_⟩
      intro _ _
      exact ⟨rfl, rfl, rfl, mapGet_mapInsert b.used_grids grid (FlowGridSketch.new p),
        rfl, rfl⟩

/-- C8 witness: registering a fresh grid of the right group in the empty
builder succeeds with both moments 0 and the expected stored sketch. -/
theorem flow_C8_registration_witness :
    (add_grid_node b0ex (AbstractGridID.mk 0 5) true).2
      = Except.ok (FlowGridBuilder.new (AbstractGridID.mk 0 5))
    ∧ (FlowGridBuilder.new (AbstractGridID.mk 0 5)).last_write_moment = 0
    ∧ (FlowGridBuilder.new (AbstractGridID.mk 0 5)).last_read_moment = 0
    ∧ mapGet (add_grid_node b0ex (AbstractGridID.mk 0 5) true).1.used_grids
        (AbstractGridID.mk 0 5) = some (FlowGridSketch.new true)
    ∧ (FlowGridSketch.new true).preserve_final_content = false
    ∧ (FlowGridSketch.new true).preserve_initial_content = true :=
  (flow_C8_registration b0ex (AbstractGridID.mk 0 5) true).2.2 rfl (by decide)

/-- C9: the code lacks the unregistered-resource rejection the spec requires.
`b0ex` has an empty `used_grids` map (no grid was ever registered in it), yet
`add_render_task` on a task whose input binding references an unregistered
handle emits a sketch (with moment 1) instead of failing: the function, like
the Rust source, has no failure path at all. -/
theorem flow_C9_no_rejection :
    b0ex.used_grids = []
    ∧ (add_render_task b0ex s0ex (exTask [0] [] 1)).1.drawing_nodes.map
        RenderTaskSketch.moment = [1] :=
  ⟨rfl, by decide⟩

/-- C10: duplicate registration is not atomic.  When the grid is already
registered, `add_grid_node` replaces the stored sketch with the fresh one
before raising the duplicate error, so at the moment of the error the stored
sketch is `FlowGridSketch.new p`, which differs from the old binding whenever
the old sketch differs from a fresh one. -/
theorem flow_C10_insert_before_panic (b : RenderFlowBuilder) (grid : AbstractGridID)
    (p : Bool) (old : FlowGridSketch)
    (hg : grid.group_id = b.id.group_id)
    (hold : mapGet b.used_grids grid = some old) :
    (add_grid_node b grid p).2 = Except.error AddGridError.duplicateResource
    ∧ mapGet (add_grid_node b grid p).1.used_grids grid = some (FlowGridSketch.new p)
    ∧ (old ≠ FlowGridSketch.new p →
        mapGet (add_grid_node b grid p).1.used_grids grid
          ≠ mapGet b.used_grids grid) := by
  have hg2 : ¬ grid.group_id ≠ b.id.group_id := not_ne_iff.mpr hg
  have hsome : (mapGet b.used_grids grid).isSome = true := by
    rw [hold]; rfl
  have he : add_grid_node b grid p
      = ({ b with used_grids := mapInsert b.used_grids grid (FlowGridSketch.new p) },
         Except.error AddGridError.duplicateResource) := by
    unfold add_grid_node
    rw [if_neg hg2, if_pos hsome]
  rw [he]
  refine ⟨rfl, mapGet_mapInsert b.used_grids grid (FlowGridSketch.new p), ?_⟩
  intro hne
  rw [mapGet_mapInsert b.used_grids grid (FlowGridSketch.new p), hold]
  intro hcontra
  exact hne (Option.some.inj hcontra).symm

/-- C10 witness: re-registering grid `(0,0)` (stored with
`preserve_initial_content = true`) with `preserve` now `false` raises the
duplicate error with the stored sketch already replaced. -/
theorem flow_C10_insert_before_panic_witness :
    (add_grid_node b1ex (AbstractGridID.mk 0 0) false).2
      = Except.error AddGridError.duplicateResource
    ∧ mapGet (add_grid_node b1ex (AbstractGridID.mk 0 0) false).1.used_grids
        (AbstractGridID.mk 0 0) = some (FlowGridSketch.new false)
    ∧ (FlowGridSketch.new true ≠ FlowGridSketch.new false →
        mapGet (add_grid_node b1ex (AbstractGridID.mk 0 0) false).1.used_grids
          (AbstractGridID.mk 0 0)
        ≠ mapGet b1ex.used_grids (AbstractGridID.mk 0 0)) :=
  flow_C10_insert_before_panic b1ex (AbstractGridID.mk 0 0) false
    (FlowGridSketch.new true) rfl (by decide)

end Griphin
